import Mathlib

/-!
Verification development for the quantitative core of a portfolio-simulation
tool: the weighted aggregator, the derived-metric calculators, and the
backtest reconstructor (file `utils/calculations.ts`).

Numbers are modelled as exact rationals where the source performs only
field arithmetic, and as real numbers where the source uses `Math.pow`
with fractional exponents or `Math.sqrt`.  `null`-able numbers become
`Option ℚ`.  JavaScript division by zero cannot arise on the paths the
theorems cover; the embedding uses the Lean convention `x / 0 = 0`.
-/

namespace ClimateShift

/-- One fund constituent (`StockPosition`): allocation weight plus the
optional observed numeric fields the calculations read. -/
structure StockPosition where
  weight : ℚ
  oneYearChangePercent : Option ℚ := none
  threeYearChangePercent : Option ℚ := none
  fiveYearChangePercent : Option ℚ := none
  dividendYieldPercent : Option ℚ := none

/-- The metrics record of a generated portfolio, restricted to the fields
the calculation module reads (the optional benchmark returns). -/
structure PortfolioMetrics where
  benchmark1YearReturn : Option ℚ := none
  benchmark3YearReturn : Option ℚ := none
  benchmark5YearReturn : Option ℚ := none

/-- A generated portfolio: its positions and its metrics record. -/
structure GeneratedPortfolio where
  positions : List StockPosition
  metrics : PortfolioMetrics

/-- The key argument of `calculateWeightedReturn`: one of the three
return-timeframe fields. -/
inductive ReturnKey where
  | oneYearChangePercent
  | threeYearChangePercent
  | fiveYearChangePercent
deriving DecidableEq

/-- Field projection `pos[key]` for the three return keys. -/
def StockPosition.getKey (pos : StockPosition) : ReturnKey → Option ℚ
  | .oneYearChangePercent => pos.oneYearChangePercent
  | .threeYearChangePercent => pos.threeYearChangePercent
  | .fiveYearChangePercent => pos.fiveYearChangePercent

/-- `RISK_FREE_RATE = 4.25` from the source. -/
def riskFreeRate : ℚ := 17 / 4

/-- `EXPENSE_RATIO = 0.10` from the source. -/
def expenseRatio : ℚ := 1 / 10

/-- The accumulation loop shared by `calculateWeightedReturn` and
`calculateDividendYield`: a fold over the positions keeping
`(weightedSum, validWeight)`, adding `weight/100 * value` and `weight`
for every position whose selected field is present. -/
def weightedAccum (get : StockPosition → Option ℚ) (positions : List StockPosition)
    (init : ℚ × ℚ) : ℚ × ℚ :=
  positions.foldl
    (fun s pos =>
      match get pos with
      | some v => (s.1 + pos.weight / 100 * v, s.2 + pos.weight)
      | none => s)
    init

/-- `calculateWeightedReturn`: weighted average of the selected return
field, `none` unless the covered weight strictly exceeds 50. -/
def calculateWeightedReturn (p : GeneratedPortfolio) (key : ReturnKey) : Option ℚ :=
  let acc := weightedAccum (fun pos => pos.getKey key) p.positions (0, 0)
  if 50 < acc.2 then some (acc.1 / acc.2 * 100) else none

/-- `calculateDividendYield`: same accumulation over the dividend-yield
field, with the same strict coverage gate. -/
def calculateDividendYield (p : GeneratedPortfolio) : Option ℚ :=
  let acc := weightedAccum (fun pos => pos.dividendYieldPercent) p.positions (0, 0)
  if 50 < acc.2 then some (acc.1 / acc.2 * 100) else none

/-- The four selectable fields of the weighted aggregate interface. -/
inductive FieldKey where
  | oneYearReturn
  | threeYearReturn
  | fiveYearReturn
  | dividendYield
deriving DecidableEq

/-- Field projection for all four selectable fields. -/
def StockPosition.getField (pos : StockPosition) : FieldKey → Option ℚ
  | .oneYearReturn => pos.oneYearChangePercent
  | .threeYearReturn => pos.threeYearChangePercent
  | .fiveYearReturn => pos.fiveYearChangePercent
  | .dividendYield => pos.dividendYieldPercent

/-- The weighted aggregate over any of the four selectable fields: the
three return fields go through `calculateWeightedReturn`, the dividend
yield through `calculateDividendYield`. -/
def aggregateField (p : GeneratedPortfolio) : FieldKey → Option ℚ
  | .oneYearReturn => calculateWeightedReturn p .oneYearChangePercent
  | .threeYearReturn => calculateWeightedReturn p .threeYearChangePercent
  | .fiveYearReturn => calculateWeightedReturn p .fiveYearChangePercent
  | .dividendYield => calculateDividendYield p

/-- Covered weight of a field: the summed weight of the positions where
the field is present. -/
def coveredWeight (p : GeneratedPortfolio) (k : FieldKey) : ℚ :=
  (p.positions.filterMap (fun pos => (pos.getField k).map (fun _ => pos.weight))).sum

/-- Covered weighted sum of a field: `Σ weight_i/100 * value_i` over the
positions where the field is present. -/
def coveredSum (p : GeneratedPortfolio) (k : FieldKey) : ℚ :=
  (p.positions.filterMap
    (fun pos => (pos.getField k).map (fun v => pos.weight / 100 * v))).sum

lemma weightedAccum_eq_sums (get : StockPosition → Option ℚ)
    (positions : List StockPosition) (init : ℚ × ℚ) :
    weightedAccum get positions init =
      (init.1 + (positions.filterMap
          (fun pos => (get pos).map (fun v => pos.weight / 100 * v))).sum,
       init.2 + (positions.filterMap
          (fun pos => (get pos).map (fun _ => pos.weight))).sum) := by
  induction positions generalizing init with
  | nil => simp [weightedAccum]
  | cons pos rest ih =>
    cases h : get pos with
    | none =>
      simp only [weightedAccum, List.foldl_cons, h, List.filterMap_cons,
        Option.map_none']
      simpa [weightedAccum] using ih init
    | some v =>
      simp only [weightedAccum, List.foldl_cons, h, List.filterMap_cons,
        Option.map_some', List.sum_cons]
      simpa [weightedAccum, add_assoc] using
        ih (init.1 + pos.weight / 100 * v, init.2 + pos.weight)

lemma aggregateField_eq (p : GeneratedPortfolio) (k : FieldKey) :
    aggregateField p k =
      if 50 < coveredWeight p k then some (coveredSum p k / coveredWeight p k * 100)
      else none := by
  cases k <;>
    simp [aggregateField, calculateWeightedReturn, calculateDividendYield,
      weightedAccum_eq_sums, coveredWeight, coveredSum, StockPosition.getField,
      StockPosition.getKey]

/-- C1: for every portfolio and every selectable field (1Y/3Y/5Y return,
dividend yield), the weighted aggregate is absent whenever the covered
weight is at most 50 (including exactly 50 and the empty portfolio), and
whenever the covered weight exceeds 50 it equals
`(Σ weight_i/100 * value_i) / coveredWeight * 100` over the covered
positions only. -/
theorem weightedAggregate_coverage_gate (p : GeneratedPortfolio) (k : FieldKey) :
    (coveredWeight p k ≤ 50 → aggregateField p k = none) ∧
    (50 < coveredWeight p k →
      aggregateField p k = some (coveredSum p k / coveredWeight p k * 100)) := by
  constructor
  · intro h
    rw [aggregateField_eq, if_neg (not_lt.mpr h)]
  · intro h
    rw [aggregateField_eq, if_pos h]

/-- A two-position portfolio with full data, matching the unit tests. -/
def mockPortfolio : GeneratedPortfolio :=
  { positions :=
      [{ weight := 50, oneYearChangePercent := some 20,
         threeYearChangePercent := some 40, fiveYearChangePercent := some 60,
         dividendYieldPercent := some 2 },
       { weight := 50, oneYearChangePercent := some 10,
         threeYearChangePercent := some 20, fiveYearChangePercent := some 40,
         dividendYieldPercent := some 1 }],
    metrics :=
      { benchmark1YearReturn := some 10, benchmark3YearReturn := some 30,
        benchmark5YearReturn := some 50 } }

/-- C1 witness: on the two-position test portfolio the covered weight of
the one-year field is 100, which exceeds 50, and the aggregate equals the
renormalized weighted sum. -/
theorem weightedAggregate_coverage_gate_witness :
    50 < coveredWeight mockPortfolio .oneYearReturn ∧
      aggregateField mockPortfolio .oneYearReturn =
        some (coveredSum mockPortfolio .oneYearReturn /
          coveredWeight mockPortfolio .oneYearReturn * 100) := by
  have h : 50 < coveredWeight mockPortfolio .oneYearReturn := by
    norm_num [coveredWeight, mockPortfolio, StockPosition.getField,
      List.filterMap_cons]
  exact ⟨h, (weightedAggregate_coverage_gate mockPortfolio .oneYearReturn).2 h⟩

/-- `calculateProjectedReturn`: the weighted one-year return minus the
expense ratio, `none` when the one-year aggregate is absent. -/
def calculateProjectedReturn (p : GeneratedPortfolio) : Option ℚ :=
  match calculateWeightedReturn p .oneYearChangePercent with
  | some r => some (r - expenseRatio)
  | none => none

/-- The accumulation loop of `estimateVolatility`: collect the present
one-year returns in order and sum the weights of the positions carrying
them. -/
def volatilityAccum (positions : List StockPosition) (init : List ℚ × ℚ) :
    List ℚ × ℚ :=
  positions.foldl
    (fun s pos =>
      match pos.oneYearChangePercent with
      | some v => (s.1 ++ [v], s.2 + pos.weight)
      | none => s)
    init

/-- Unweighted mean of a list of rationals, as in `estimateVolatility`. -/
def listMean (l : List ℚ) : ℚ := l.sum / (l.length : ℚ)

/-- Population variance of a list of rationals: sum of squared deviations
from the mean divided by the count. -/
def listVariance (l : List ℚ) : ℚ :=
  ((l.map (fun r => (r - listMean l) ^ 2)).sum) / (l.length : ℚ)

/-- `estimateVolatility`: population standard deviation of the present
one-year returns scaled by the diversification factor 0.7, gated on at
least 3 returns and combined weight at least 50. -/
noncomputable def estimateVolatility (p : GeneratedPortfolio) : Option ℝ :=
  if (volatilityAccum p.positions ([], 0)).1.length < 3 ∨
      (volatilityAccum p.positions ([], 0)).2 < 50 then none
  else
    some (Real.sqrt ((listVariance (volatilityAccum p.positions ([], 0)).1 : ℚ) : ℝ)
      * (7 / 10))

/-- `calculateSharpeRatio`: `(projectedReturn - RISK_FREE_RATE) / volatility`
with `null` propagation and an explicit zero-denominator guard. -/
noncomputable def calculateSharpeRatio (p : GeneratedPortfolio) : Option ℝ :=
  match calculateProjectedReturn p, estimateVolatility p with
  | some pr, some v =>
      if v = 0 then none
      else some ((((pr : ℚ) : ℝ) - ((riskFreeRate : ℚ) : ℝ)) / v)
  | _, _ => none

/-- The present one-year returns of the positions, in position order. -/
def volReturns (p : GeneratedPortfolio) : List ℚ :=
  p.positions.filterMap (fun pos => pos.oneYearChangePercent)

lemma volatilityAccum_eq (positions : List StockPosition) (init : List ℚ × ℚ) :
    volatilityAccum positions init =
      (init.1 ++ positions.filterMap (fun pos => pos.oneYearChangePercent),
       init.2 + (positions.filterMap
          (fun pos => pos.oneYearChangePercent.map (fun _ => pos.weight))).sum) := by
  induction positions generalizing init with
  | nil => simp [volatilityAccum]
  | cons pos rest ih =>
    cases h : pos.oneYearChangePercent with
    | none =>
      simp only [volatilityAccum, List.foldl_cons, h, List.filterMap_cons,
        Option.map_none']
      simpa [volatilityAccum] using ih init
    | some v =>
      simp only [volatilityAccum, List.foldl_cons, h, List.filterMap_cons,
        Option.map_some', List.sum_cons]
      simpa [volatilityAccum, add_assoc] using ih (init.1 ++ [v], init.2 + pos.weight)

lemma volatilityAccum_closed (p : GeneratedPortfolio) :
    volatilityAccum p.positions ([], 0) =
      (volReturns p, coveredWeight p .oneYearReturn) := by
  rw [volatilityAccum_eq]
  simp [volReturns, coveredWeight, StockPosition.getField]

/-- C5: the projected return is present exactly when the weighted one-year
aggregate is present, and then equals it minus the fixed expense-ratio
constant 0.10; absence propagates (never defaulted to zero). -/
theorem calculateProjectedReturn_spec (p : GeneratedPortfolio) :
    calculateProjectedReturn p =
      (calculateWeightedReturn p .oneYearChangePercent).map (fun r => r - 1 / 10) := by
  cases h : calculateWeightedReturn p .oneYearChangePercent <;>
    simp [calculateProjectedReturn, h, expenseRatio]

/-- C6: the volatility proxy is absent when fewer than 3 one-year returns
are present or their combined weight is below 50 (weight exactly 50 passes
the gate); when the gate passes it equals the population standard
deviation (sum of squared deviations over the count) of the unweighted
present one-year returns times the diversification factor 0.7. -/
theorem estimateVolatility_spec (p : GeneratedPortfolio) :
    ((volReturns p).length < 3 ∨ coveredWeight p .oneYearReturn < 50 →
      estimateVolatility p = none) ∧
    (3 ≤ (volReturns p).length → 50 ≤ coveredWeight p .oneYearReturn →
      estimateVolatility p =
        some (Real.sqrt ((listVariance (volReturns p) : ℚ) : ℝ) * (7 / 10))) := by
  constructor
  · intro h
    rw [estimateVolatility, volatilityAccum_closed, if_pos h]
  · intro h1 h2
    rw [estimateVolatility, volatilityAccum_closed,
      if_neg (by push_neg; exact ⟨h1, h2⟩)]

/-- Three positions with one-year returns 25, 15, 10 and weights 30, 30,
40, matching the spec's volatility example. -/
def volPortfolio : GeneratedPortfolio :=
  { positions :=
      [{ weight := 30, oneYearChangePercent := some 25 },
       { weight := 30, oneYearChangePercent := some 15 },
       { weight := 40, oneYearChangePercent := some 10 }],
    metrics := {} }

/-- C6 witness: on the three-position example portfolio both gate
conditions hold and the volatility proxy equals the population standard
deviation of the returns times 0.7. -/
theorem estimateVolatility_spec_witness :
    3 ≤ (volReturns volPortfolio).length ∧
      50 ≤ coveredWeight volPortfolio .oneYearReturn ∧
      estimateVolatility volPortfolio =
        some (Real.sqrt ((listVariance (volReturns volPortfolio) : ℚ) : ℝ)
          * (7 / 10)) := by
  have h1 : 3 ≤ (volReturns volPortfolio).length := by
    norm_num [volReturns, volPortfolio, List.filterMap_cons]
  have h2 : 50 ≤ coveredWeight volPortfolio .oneYearReturn := by
    norm_num [coveredWeight, volPortfolio, StockPosition.getField,
      List.filterMap_cons]
  exact ⟨h1, h2, (estimateVolatility_spec volPortfolio).2 h1 h2⟩

/-- C7: the Sharpe ratio is absent exactly when the projected return is
absent, the volatility proxy is absent, or the volatility proxy is zero;
otherwise it equals `(projected return - 4.25) / volatility`. -/
theorem calculateSharpeRatio_spec (p : GeneratedPortfolio) :
    (calculateSharpeRatio p = none ↔
      calculateProjectedReturn p = none ∨ estimateVolatility p = none ∨
        estimateVolatility p = some 0) ∧
    (∀ pr v, calculateProjectedReturn p = some pr → estimateVolatility p = some v →
      v ≠ 0 → calculateSharpeRatio p = some ((((pr : ℚ) : ℝ) - 4.25) / v)) := by
  constructor
  · cases hp : calculateProjectedReturn p with
    | none => simp [calculateSharpeRatio, hp]
    | some pr =>
      cases hv : estimateVolatility p with
      | none => simp [calculateSharpeRatio, hp, hv]
      | some v =>
        by_cases h0 : v = 0
        · subst h0
          simp [calculateSharpeRatio, hp, hv]
        · simp [calculateSharpeRatio, hp, hv, h0]
  · intro pr v hp hv h0
    have hrf : (4.25 : ℝ) = ((riskFreeRate : ℚ) : ℝ) := by norm_num [riskFreeRate]
    rw [hrf]
    simp [calculateSharpeRatio, hp, hv, h0]

/-- Three equally-weighted positions with one-year returns 1, -1, 0:
covered weight 60, mean 0, variance 2/3. -/
def sharpePortfolio : GeneratedPortfolio :=
  { positions :=
      [{ weight := 20, oneYearChangePercent := some 1 },
       { weight := 20, oneYearChangePercent := some (-1) },
       { weight := 20, oneYearChangePercent := some 0 }],
    metrics := {} }

/-- C7 witness: on the three-position portfolio the projected return is
-0.1, the volatility proxy is `sqrt (2/3) * 0.7` (nonzero), and the Sharpe
ratio equals the guarded quotient. -/
theorem calculateSharpeRatio_spec_witness :
    calculateProjectedReturn sharpePortfolio = some (-(1 / 10)) ∧
      estimateVolatility sharpePortfolio =
        some (Real.sqrt (((2 : ℚ) / 3 : ℚ) : ℝ) * (7 / 10)) ∧
      calculateSharpeRatio sharpePortfolio =
        some (((((-(1 / 10) : ℚ)) : ℝ) - 4.25) /
          (Real.sqrt (((2 : ℚ) / 3 : ℚ) : ℝ) * (7 / 10))) := by
  have hp : calculateProjectedReturn sharpePortfolio = some (-(1 / 10)) := by
    have : calculateWeightedReturn sharpePortfolio .oneYearChangePercent = some 0 := by
      rw [calculateWeightedReturn, weightedAccum_eq_sums]
      norm_num [sharpePortfolio, StockPosition.getKey, List.filterMap_cons]
    rw [calculateProjectedReturn, this]
    norm_num [expenseRatio]
  have hvar : listVariance (volReturns sharpePortfolio) = 2 / 3 := by
    norm_num [listVariance, listMean, volReturns, sharpePortfolio,
      List.filterMap_cons]
  have hv : estimateVolatility sharpePortfolio =
      some (Real.sqrt (((2 : ℚ) / 3 : ℚ) : ℝ) * (7 / 10)) := by
    rw [estimateVolatility, volatilityAccum_closed, if_neg, hvar]
    push_neg
    constructor
    · norm_num [volReturns, sharpePortfolio, List.filterMap_cons]
    · norm_num [coveredWeight, sharpePortfolio, StockPosition.getField,
        List.filterMap_cons]
  have h0 : Real.sqrt (((2 : ℚ) / 3 : ℚ) : ℝ) * (7 / 10) ≠ 0 := by
    have : (0 : ℝ) < Real.sqrt (((2 : ℚ) / 3 : ℚ) : ℝ) := by
      apply Real.sqrt_pos.mpr
      norm_num
    positivity
  exact ⟨hp, hv, (calculateSharpeRatio_spec sharpePortfolio).2 _ _ hp hv h0⟩

/-- C10: whenever the volatility proxy is present its value is
nonnegative: a square root scaled by the positive factor 0.7. -/
theorem estimateVolatility_nonneg (p : GeneratedPortfolio) (v : ℝ)
    (h : estimateVolatility p = some v) : 0 ≤ v := by
  rw [estimateVolatility] at h
  split at h
  · exact absurd h (by simp)
  · have hv : v = Real.sqrt ((listVariance (volatilityAccum p.positions ([], 0)).1 : ℚ) : ℝ)
        * (7 / 10) := by
      exact (Option.some_injective ℝ h).symm
    rw [hv]
    positivity

/-- C10 witness: the three-position example portfolio has a present
volatility proxy, and it is nonnegative. -/
theorem estimateVolatility_nonneg_witness :
    0 ≤ Real.sqrt ((listVariance (volReturns volPortfolio) : ℚ) : ℝ) * (7 / 10) := by
  apply estimateVolatility_nonneg volPortfolio
  rw [estimateVolatility, volatilityAccum_closed, if_neg]
  push_neg
  constructor
  · norm_num [volReturns, volPortfolio, List.filterMap_cons]
  · norm_num [coveredWeight, volPortfolio, StockPosition.getField,
      List.filterMap_cons]

/-- JavaScript truthiness of a nullable number: `null` and `0` are falsy. -/
def jsTruthy : Option ℚ → Bool
  | some v => decide (v ≠ 0)
  | none => false

/-- JavaScript `x || d` on a nullable number: `d` when `x` is `null` or
`0`, else the value of `x`. -/
def jsOr (o : Option ℚ) (d : ℚ) : ℚ :=
  match o with
  | some v => if v = 0 then d else v
  | none => d

/-- One month's interpolated value for one series of the backtest, from
the source's three-segment branch on the month index `m`.  `vNow` is the
derived now-value, `v3` and `v1` the derived 3-year-ago and 1-year-ago
anchor values (absent when the matching return is absent). -/
noncomputable def segValue (vNow : ℚ) (v3 v1 : Option ℚ) (m : ℕ) : ℝ :=
  if m ≤ 24 then
    if jsTruthy v3 then
      10000 * (((v3.getD 0 / 10000 : ℚ)) : ℝ) ^ ((m : ℝ) / 24)
    else
      10000 * (((vNow / 10000 : ℚ)) : ℝ) ^ ((m : ℝ) / 60)
  else if m ≤ 48 then
    let startV : ℝ :=
      if jsTruthy v3 then ((v3.getD 0 : ℚ) : ℝ)
      else 10000 * (((vNow / 10000 : ℚ)) : ℝ) ^ ((24 : ℝ) / 60)
    let endV : ℚ := jsOr v1 vNow
    startV * (((endV : ℚ) : ℝ) / startV) ^ (((m : ℝ) - 24) / 24)
  else
    let startV : ℚ := jsOr v1 (jsOr v3 10000)
    ((startV : ℚ) : ℝ) * ((vNow : ℝ) / ((startV : ℚ) : ℝ)) ^ (((m : ℝ) - 48) / 12)

/-- One point of the backtest series.  The source also carries formatted
date strings and a decimal year derived from the same month offset; the
embedding keeps the month-granular timestamp (`referenceDate - (60 - m)`),
the month index, and the two rounded values. -/
structure BacktestDataPoint where
  dateMonth : ℤ
  monthIndex : ℕ
  sp500 : ℤ
  fund : ℤ
deriving DecidableEq

/-- The derived anchor value for a return `r` relative to a now-value:
`now / (1 + r/100)`, absent when the return is absent. -/
def anchorValue (vNow : ℚ) (r : Option ℚ) : Option ℚ :=
  r.map (fun x => vNow / (1 + x / 100))

/-- `generateBacktestData`: the 61-point monthly backtest series, or the
empty list when the fund's weighted 5-year return or the benchmark 5-year
return is absent.  The reference date is an explicit parameter, modelled
at month granularity. -/
noncomputable def generateBacktestData (p : GeneratedPortfolio)
    (referenceDate : ℤ) : List BacktestDataPoint :=
  match calculateWeightedReturn p .fiveYearChangePercent,
      p.metrics.benchmark5YearReturn with
  | some f5, some b5 =>
      let pNow : ℚ := 10000 * (1 + f5 / 100)
      let bNow : ℚ := 10000 * (1 + b5 / 100)
      let p1 := anchorValue pNow (calculateWeightedReturn p .oneYearChangePercent)
      let p3 := anchorValue pNow (calculateWeightedReturn p .threeYearChangePercent)
      let b1 := anchorValue bNow p.metrics.benchmark1YearReturn
      let b3 := anchorValue bNow p.metrics.benchmark3YearReturn
      (List.range 61).map (fun (m : ℕ) =>
        { dateMonth := referenceDate - (60 - (m : ℤ))
          monthIndex := m
          sp500 := round (segValue bNow b3 b1 m)
          fund := round (segValue pNow p3 p1 m) })
  | _, _ => []

/-- C2: the backtest series has exactly 61 points when both the fund's
weighted 5-year return and the benchmark 5-year return are present, and
is exactly the empty list when either is absent. -/
theorem generateBacktestData_length (p : GeneratedPortfolio) (d : ℤ) :
    ((calculateWeightedReturn p .fiveYearChangePercent).isSome ∧
        (p.metrics.benchmark5YearReturn).isSome →
      (generateBacktestData p d).length = 61) ∧
    (¬((calculateWeightedReturn p .fiveYearChangePercent).isSome ∧
        (p.metrics.benchmark5YearReturn).isSome) →
      generateBacktestData p d = []) := by
  cases h5 : calculateWeightedReturn p .fiveYearChangePercent with
  | none =>
    refine ⟨fun h => absurd h ?_, fun _ => ?_⟩
    · simp
    · rw [generateBacktestData, h5]
  | some f5 =>
    cases hb : p.metrics.benchmark5YearReturn with
    | none =>
      refine ⟨fun h => absurd h ?_, fun _ => ?_⟩
      · simp
      · rw [generateBacktestData, h5, hb]
    | some b5 =>
      refine ⟨fun _ => ?_, fun h => ?_⟩
      · rw [generateBacktestData, h5, hb]
        simp
      · exact absurd ⟨rfl, rfl⟩ h

/-- C2 witness: on the full-data test portfolio both 5-year anchors are
present and the series has exactly 61 points. -/
theorem generateBacktestData_length_witness :
    ((calculateWeightedReturn mockPortfolio .fiveYearChangePercent).isSome ∧
        (mockPortfolio.metrics.benchmark5YearReturn).isSome) ∧
      (generateBacktestData mockPortfolio 0).length = 61 := by
  have h : (calculateWeightedReturn mockPortfolio .fiveYearChangePercent).isSome ∧
      (mockPortfolio.metrics.benchmark5YearReturn).isSome := by
    constructor
    · rw [calculateWeightedReturn, weightedAccum_eq_sums]
      norm_num [mockPortfolio, StockPosition.getKey, List.filterMap_cons]
    · simp [mockPortfolio]
  exact ⟨h, (generateBacktestData_length mockPortfolio 0).1 h⟩

lemma jsOr_ne_zero (o : Option ℚ) (d : ℚ) (hd : d ≠ 0) : jsOr o d ≠ 0 := by
  cases o with
  | none => exact hd
  | some v =>
    by_cases h : v = 0
    · simpa [jsOr, h] using hd
    · simp [jsOr, h]

lemma segValue_zero (vNow : ℚ) (v3 v1 : Option ℚ) :
    segValue vNow v3 v1 0 = 10000 := by
  rw [segValue, if_pos (by norm_num)]
  split <;> simp

lemma segValue_sixty (vNow : ℚ) (v3 v1 : Option ℚ) :
    segValue vNow v3 v1 60 = ((vNow : ℚ) : ℝ) := by
  rw [segValue, if_neg (by norm_num), if_neg (by norm_num)]
  have hS : jsOr v1 (jsOr v3 10000) ≠ 0 :=
    jsOr_ne_zero _ _ (jsOr_ne_zero _ _ (by norm_num))
  have hS' : ((jsOr v1 (jsOr v3 10000) : ℚ) : ℝ) ≠ 0 := by exact_mod_cast hS
  have he : (((60 : ℕ) : ℝ) - 48) / 12 = 1 := by norm_num
  rw [he]
  dsimp only
  rw [Real.rpow_one, mul_comm, div_mul_cancel₀ _ hS']

lemma generateBacktestData_getElem (p : GeneratedPortfolio) (d : ℤ) (f5 b5 : ℚ)
    (h5 : calculateWeightedReturn p .fiveYearChangePercent = some f5)
    (hb : p.metrics.benchmark5YearReturn = some b5) (m : ℕ) (hm : m < 61) :
    (generateBacktestData p d)[m]? = some
      { dateMonth := d - (60 - (m : ℤ))
        monthIndex := m
        sp500 := round (segValue (10000 * (1 + b5 / 100))
          (anchorValue (10000 * (1 + b5 / 100)) p.metrics.benchmark3YearReturn)
          (anchorValue (10000 * (1 + b5 / 100)) p.metrics.benchmark1YearReturn) m)
        fund := round (segValue (10000 * (1 + f5 / 100))
          (anchorValue (10000 * (1 + f5 / 100))
            (calculateWeightedReturn p .threeYearChangePercent))
          (anchorValue (10000 * (1 + f5 / 100))
            (calculateWeightedReturn p .oneYearChangePercent)) m) } := by
  simp only [generateBacktestData]
  rw [h5, hb]
  simp [List.getElem?_map, List.getElem?_range, hm]

/-- C4: whenever the backtest series is non-empty, its first point has
fund and benchmark value exactly 10000, and its last point has fund value
`round (10000 * (1 + fundFiveYear/100))` and benchmark value
`round (10000 * (1 + benchmarkFiveYear/100))`, each series independently. -/
theorem generateBacktestData_endpoints (p : GeneratedPortfolio) (d : ℤ) (f5 b5 : ℚ)
    (h5 : calculateWeightedReturn p .fiveYearChangePercent = some f5)
    (hb : p.metrics.benchmark5YearReturn = some b5) :
    ((generateBacktestData p d).map BacktestDataPoint.fund)[0]? = some 10000 ∧
    ((generateBacktestData p d).map BacktestDataPoint.sp500)[0]? = some 10000 ∧
    ((generateBacktestData p d).map BacktestDataPoint.fund)[60]? =
      some (round ((10000 : ℝ) * (1 + (f5 : ℝ) / 100))) ∧
    ((generateBacktestData p d).map BacktestDataPoint.sp500)[60]? =
      some (round ((10000 : ℝ) * (1 + (b5 : ℝ) / 100))) := by
  have h0 := generateBacktestData_getElem p d f5 b5 h5 hb 0 (by norm_num)
  have h60 := generateBacktestData_getElem p d f5 b5 h5 hb 60 (by norm_num)
  have hr : round ((10000 : ℝ)) = (10000 : ℤ) := by
    have : ((10000 : ℤ) : ℝ) = (10000 : ℝ) := by norm_num
    rw [← this, round_intCast]
  have hf : ((10000 * (1 + f5 / 100) : ℚ) : ℝ) = (10000 : ℝ) * (1 + (f5 : ℝ) / 100) := by
    push_cast
    ring
  have hg : ((10000 * (1 + b5 / 100) : ℚ) : ℝ) = (10000 : ℝ) * (1 + (b5 : ℝ) / 100) := by
    push_cast
    ring
  refine ⟨?_, ?_, ?_, ?_⟩
  · rw [List.getElem?_map, h0]
    simp [segValue_zero, hr]
  · rw [List.getElem?_map, h0]
    simp [segValue_zero, hr]
  · rw [List.getElem?_map, h60]
    simp [segValue_sixty, hf]
  · rw [List.getElem?_map, h60]
    simp [segValue_sixty, hg]

/-- C4 witness: the two-position test portfolio has fund 5-year aggregate
50 and benchmark 5-year return 50; the series starts at 10000 for both
and ends at the rounded compounded values. -/
theorem generateBacktestData_endpoints_witness :
    calculateWeightedReturn mockPortfolio .fiveYearChangePercent = some 50 ∧
      ((generateBacktestData mockPortfolio 0).map BacktestDataPoint.fund)[0]? =
        some 10000 ∧
      ((generateBacktestData mockPortfolio 0).map BacktestDataPoint.sp500)[0]? =
        some 10000 ∧
      ((generateBacktestData mockPortfolio 0).map BacktestDataPoint.fund)[60]? =
        some (round ((10000 : ℝ) * (1 + ((50 : ℚ) : ℝ) / 100))) ∧
      ((generateBacktestData mockPortfolio 0).map BacktestDataPoint.sp500)[60]? =
        some (round ((10000 : ℝ) * (1 + ((50 : ℚ) : ℝ) / 100))) := by
  have h5 : calculateWeightedReturn mockPortfolio .fiveYearChangePercent = some 50 := by
    rw [calculateWeightedReturn, weightedAccum_eq_sums]
    norm_num [mockPortfolio, StockPosition.getKey, List.filterMap_cons]
  have hb : mockPortfolio.metrics.benchmark5YearReturn = some 50 := rfl
  have h := generateBacktestData_endpoints mockPortfolio 0 50 50 h5 hb
  exact ⟨h5, h.1, h.2.1, h.2.2.1, h.2.2.2⟩

/-- Modelled from the claim's wording, for comparison with the source:
anchor boundaries are used whenever the corresponding anchor is present,
and a missing 1-year boundary falls back to the 3-year anchor and then to
the start value in both windows that touch it.  Where the claim is silent
(the middle window's start when the 3-year anchor is absent) this follows
the source. -/
noncomputable def claimSegValue (vNow : ℚ) (v3 v1 : Option ℚ) (m : ℕ) : ℝ :=
  if m ≤ 24 then
    match v3 with
    | some a3 => 10000 * (((a3 / 10000 : ℚ)) : ℝ) ^ ((m : ℝ) / 24)
    | none => 10000 * (((vNow / 10000 : ℚ)) : ℝ) ^ ((m : ℝ) / 60)
  else if m ≤ 48 then
    let startV : ℝ :=
      match v3 with
      | some a3 => ((a3 : ℚ) : ℝ)
      | none => 10000 * (((vNow / 10000 : ℚ)) : ℝ) ^ ((24 : ℝ) / 60)
    let endV : ℚ :=
      match v1 with
      | some a1 => a1
      | none => match v3 with | some a3 => a3 | none => 10000
    startV * (((endV : ℚ) : ℝ) / startV) ^ (((m : ℝ) - 24) / 24)
  else
    let startV : ℚ :=
      match v1 with
      | some a1 => a1
      | none => match v3 with | some a3 => a3 | none => 10000
    ((startV : ℚ) : ℝ) * ((vNow : ℝ) / ((startV : ℚ) : ℝ)) ^ (((m : ℝ) - 48) / 12)

/-- The amended claim's window semantics: identical to `claimSegValue`
except that the middle window's missing 1-year end boundary falls back to
the now value, as the source does. -/
noncomputable def amendedSegValue (vNow : ℚ) (v3 v1 : Option ℚ) (m : ℕ) : ℝ :=
  if m ≤ 24 then
    match v3 with
    | some a3 => 10000 * (((a3 / 10000 : ℚ)) : ℝ) ^ ((m : ℝ) / 24)
    | none => 10000 * (((vNow / 10000 : ℚ)) : ℝ) ^ ((m : ℝ) / 60)
  else if m ≤ 48 then
    let startV : ℝ :=
      match v3 with
      | some a3 => ((a3 : ℚ) : ℝ)
      | none => 10000 * (((vNow / 10000 : ℚ)) : ℝ) ^ ((24 : ℝ) / 60)
    let endV : ℚ :=
      match v1 with
      | some a1 => a1
      | none => vNow
    startV * (((endV : ℚ) : ℝ) / startV) ^ (((m : ℝ) - 24) / 24)
  else
    let startV : ℚ :=
      match v1 with
      | some a1 => a1
      | none => match v3 with | some a3 => a3 | none => 10000
    ((startV : ℚ) : ℝ) * ((vNow : ℝ) / ((startV : ℚ) : ℝ)) ^ (((m : ℝ) - 48) / 12)

lemma segValue_eq_amended (vNow : ℚ) (v3 v1 : Option ℚ)
    (h3 : ∀ a, v3 = some a → a ≠ 0) (h1 : ∀ a, v1 = some a → a ≠ 0) (m : ℕ) :
    segValue vNow v3 v1 m = amendedSegValue vNow v3 v1 m := by
  cases v3 with
  | none =>
    cases v1 with
    | none => simp [segValue, amendedSegValue, jsTruthy, jsOr]
    | some a1 =>
      have ha1 := h1 a1 rfl
      simp [segValue, amendedSegValue, jsTruthy, jsOr, ha1]
  | some a3 =>
    have ha3 := h3 a3 rfl
    cases v1 with
    | none => simp [segValue, amendedSegValue, jsTruthy, jsOr, ha3]
    | some a1 =>
      have ha1 := h1 a1 rfl
      simp [segValue, amendedSegValue, jsTruthy, jsOr, ha3, ha1]

/-- A single-position portfolio: weight 100, three-year and five-year
returns both 100, one-year return absent; benchmark five-year return 0. -/
def cexPortfolio : GeneratedPortfolio :=
  { positions :=
      [{ weight := 100, threeYearChangePercent := some 100,
         fiveYearChangePercent := some 100 }],
    metrics := { benchmark5YearReturn := some 0 } }

/-- C3 counterexample: on `cexPortfolio` the 3-year anchor is present and
the 1-year anchor absent; the code's fund value at month 48 is 20000
because the middle window's missing 1-year end boundary falls back to the
now value, while the claim's fallback chain (3-year anchor, then start)
puts the month-48 value at 10000. -/
theorem backtest_windows_cex :
    calculateWeightedReturn cexPortfolio .threeYearChangePercent = some 100 ∧
    calculateWeightedReturn cexPortfolio .oneYearChangePercent = none ∧
    ((generateBacktestData cexPortfolio 0).map BacktestDataPoint.fund)[48]? =
      some 20000 ∧
    round (claimSegValue (10000 * (1 + (100 : ℚ) / 100))
      (anchorValue (10000 * (1 + (100 : ℚ) / 100)) (some 100)) none 48) =
      (10000 : ℤ) ∧
    (20000 : ℤ) ≠ (10000 : ℤ) := by
  have h3 : calculateWeightedReturn cexPortfolio .threeYearChangePercent = some 100 := by
    rw [calculateWeightedReturn, weightedAccum_eq_sums]
    norm_num [cexPortfolio, StockPosition.getKey, List.filterMap_cons]
  have h1 : calculateWeightedReturn cexPortfolio .oneYearChangePercent = none := by
    rw [calculateWeightedReturn, weightedAccum_eq_sums]
    norm_num [cexPortfolio, StockPosition.getKey, List.filterMap_cons]
  have h5 : calculateWeightedReturn cexPortfolio .fiveYearChangePercent = some 100 := by
    rw [calculateWeightedReturn, weightedAccum_eq_sums]
    norm_num [cexPortfolio, StockPosition.getKey, List.filterMap_cons]
  have hb : cexPortfolio.metrics.benchmark5YearReturn = some 0 := rfl
  have hv : segValue (10000 * (1 + (100 : ℚ) / 100))
      (anchorValue (10000 * (1 + (100 : ℚ) / 100))
        (calculateWeightedReturn cexPortfolio .threeYearChangePercent))
      (anchorValue (10000 * (1 + (100 : ℚ) / 100))
        (calculateWeightedReturn cexPortfolio .oneYearChangePercent)) 48 =
      ((20000 : ℚ) : ℝ) := by
    rw [h3, h1]
    have ha : anchorValue (10000 * (1 + (100 : ℚ) / 100)) (some 100) =
        some 10000 := by
      norm_num [anchorValue]
    rw [ha]
    rw [segValue, if_neg (by norm_num), if_pos (by norm_num)]
    have ht : jsTruthy (some (10000 : ℚ)) = true := by
      simp [jsTruthy]
    rw [ht]
    have he : (((48 : ℕ) : ℝ) - 24) / 24 = 1 := by norm_num
    simp only [if_true, anchorValue, Option.map_none']
    rw [he]
    simp only [Real.rpow_one]
    norm_num [jsOr]
  have hcd : ((generateBacktestData cexPortfolio 0).map BacktestDataPoint.fund)[48]? =
      some 20000 := by
    rw [List.getElem?_map,
      generateBacktestData_getElem cexPortfolio 0 100 0 h5 hb 48 (by norm_num)]
    simp only [Option.map_some']
    rw [hv]
    have : round (((20000 : ℚ) : ℝ)) = (20000 : ℤ) := by
      rw [show ((20000 : ℚ) : ℝ) = ((20000 : ℤ) : ℝ) by norm_num, round_intCast]
    rw [this]
  have hclaim : round (claimSegValue (10000 * (1 + (100 : ℚ) / 100))
      (anchorValue (10000 * (1 + (100 : ℚ) / 100)) (some 100)) none 48) =
      (10000 : ℤ) := by
    have ha : anchorValue (10000 * (1 + (100 : ℚ) / 100)) (some 100) =
        some 10000 := by
      norm_num [anchorValue]
    rw [ha, claimSegValue, if_neg (by norm_num), if_pos (by norm_num)]
    have he : (((48 : ℕ) : ℝ) - 24) / 24 = 1 := by norm_num
    rw [he]
    simp only [Real.rpow_one]
    have : ((10000 : ℚ) : ℝ) * (((10000 : ℚ) : ℝ) / ((10000 : ℚ) : ℝ)) =
        ((10000 : ℤ) : ℝ) := by norm_num
    rw [this, round_intCast]
  exact ⟨h3, h1, hcd, hclaim, by norm_num⟩

/-- C3 (amended): when the 5-year gate passes and every present derived
anchor value is nonzero, each point of both series follows the three
window formulas with anchor-derived boundaries (3-years-ago value
`now / (1 + r3/100)`, 1-year-ago value analogously), exponential
interpolation `start * (end/start) ^ (progress/duration)` inside each
window, the degraded `start * (now/start) ^ (m/60)` first window when the
3-year anchor is absent, a missing 1-year end boundary of the middle
window falling back to the now value, and a missing 1-year start of the
last window falling back to the 3-year anchor and then the start value. -/
theorem backtest_windows_amended (p : GeneratedPortfolio) (d : ℤ) (f5 b5 : ℚ)
    (h5 : calculateWeightedReturn p .fiveYearChangePercent = some f5)
    (hb : p.metrics.benchmark5YearReturn = some b5)
    (hp3 : ∀ a, anchorValue (10000 * (1 + f5 / 100))
        (calculateWeightedReturn p .threeYearChangePercent) = some a → a ≠ 0)
    (hp1 : ∀ a, anchorValue (10000 * (1 + f5 / 100))
        (calculateWeightedReturn p .oneYearChangePercent) = some a → a ≠ 0)
    (hb3 : ∀ a, anchorValue (10000 * (1 + b5 / 100))
        p.metrics.benchmark3YearReturn = some a → a ≠ 0)
    (hb1 : ∀ a, anchorValue (10000 * (1 + b5 / 100))
        p.metrics.benchmark1YearReturn = some a → a ≠ 0)
    (m : ℕ) (hm : m < 61) :
    ((generateBacktestData p d).map BacktestDataPoint.fund)[m]? =
      some (round (amendedSegValue (10000 * (1 + f5 / 100))
        (anchorValue (10000 * (1 + f5 / 100))
          (calculateWeightedReturn p .threeYearChangePercent))
        (anchorValue (10000 * (1 + f5 / 100))
          (calculateWeightedReturn p .oneYearChangePercent)) m)) ∧
    ((generateBacktestData p d).map BacktestDataPoint.sp500)[m]? =
      some (round (amendedSegValue (10000 * (1 + b5 / 100))
        (anchorValue (10000 * (1 + b5 / 100)) p.metrics.benchmark3YearReturn)
        (anchorValue (10000 * (1 + b5 / 100)) p.metrics.benchmark1YearReturn) m)) := by
  have hg := generateBacktestData_getElem p d f5 b5 h5 hb m hm
  constructor
  · rw [List.getElem?_map, hg, Option.map_some',
      segValue_eq_amended _ _ _ hp3 hp1 m]
  · rw [List.getElem?_map, hg, Option.map_some',
      segValue_eq_amended _ _ _ hb3 hb1 m]

/-- C3 witness: on the full-data test portfolio all hypotheses hold (all
anchors present with nonzero derived values) and month 30 of both series
follows the amended window formulas. -/
theorem backtest_windows_amended_witness :
    calculateWeightedReturn mockPortfolio .fiveYearChangePercent = some 50 ∧
      ((generateBacktestData mockPortfolio 0).map BacktestDataPoint.fund)[30]? =
        some (round (amendedSegValue (10000 * (1 + (50 : ℚ) / 100))
          (anchorValue (10000 * (1 + (50 : ℚ) / 100))
            (calculateWeightedReturn mockPortfolio .threeYearChangePercent))
          (anchorValue (10000 * (1 + (50 : ℚ) / 100))
            (calculateWeightedReturn mockPortfolio .oneYearChangePercent)) 30)) ∧
      ((generateBacktestData mockPortfolio 0).map BacktestDataPoint.sp500)[30]? =
        some (round (amendedSegValue (10000 * (1 + (50 : ℚ) / 100))
          (anchorValue (10000 * (1 + (50 : ℚ) / 100))
            mockPortfolio.metrics.benchmark3YearReturn)
          (anchorValue (10000 * (1 + (50 : ℚ) / 100))
            mockPortfolio.metrics.benchmark1YearReturn) 30)) := by
  have h5 : calculateWeightedReturn mockPortfolio .fiveYearChangePercent = some 50 := by
    rw [calculateWeightedReturn, weightedAccum_eq_sums]
    norm_num [mockPortfolio, StockPosition.getKey, List.filterMap_cons]
  have h3 : calculateWeightedReturn mockPortfolio .threeYearChangePercent = some 30 := by
    rw [calculateWeightedReturn, weightedAccum_eq_sums]
    norm_num [mockPortfolio, StockPosition.getKey, List.filterMap_cons]
  have h1 : calculateWeightedReturn mockPortfolio .oneYearChangePercent = some 15 := by
    rw [calculateWeightedReturn, weightedAccum_eq_sums]
    norm_num [mockPortfolio, StockPosition.getKey, List.filterMap_cons]
  have hb : mockPortfolio.metrics.benchmark5YearReturn = some 50 := rfl
  have hb3 : mockPortfolio.metrics.benchmark3YearReturn = some 30 := rfl
  have hb1 : mockPortfolio.metrics.benchmark1YearReturn = some 10 := rfl
  have hw := backtest_windows_amended mockPortfolio 0 50 50 h5 hb
    (by
      intro a ha
      rw [h3] at ha
      simp only [anchorValue, Option.map_some', Option.some_inj] at ha
      rw [← ha]
      norm_num)
    (by
      intro a ha
      rw [h1] at ha
      simp only [anchorValue, Option.map_some', Option.some_inj] at ha
      rw [← ha]
      norm_num)
    (by
      intro a ha
      rw [hb3] at ha
      simp only [anchorValue, Option.map_some', Option.some_inj] at ha
      rw [← ha]
      norm_num)
    (by
      intro a ha
      rw [hb1] at ha
      simp only [anchorValue, Option.map_some', Option.some_inj] at ha
      rw [← ha]
      norm_num)
    30 (by norm_num)
  exact ⟨h5, hw.1, hw.2⟩

/-- C8: the weighted aggregator and the backtest reconstructor are
deterministic functions of their arguments alone (portfolio, field
selector, and explicit reference date): two invocations with identical
inputs produce identical outputs. -/
theorem core_determinism (p q : GeneratedPortfolio) (k j : ReturnKey) (d e : ℤ)
    (hp : p = q) (hk : k = j) (hd : d = e) :
    calculateWeightedReturn p k = calculateWeightedReturn q j ∧
      generateBacktestData p d = generateBacktestData q e := by
  subst hp
  subst hk
  subst hd
  exact ⟨rfl, rfl⟩

/-- C8 witness: two invocations on the test portfolio with the same key
and reference date agree. -/
theorem core_determinism_witness :
    calculateWeightedReturn mockPortfolio .oneYearChangePercent =
        calculateWeightedReturn mockPortfolio .oneYearChangePercent ∧
      generateBacktestData mockPortfolio 0 = generateBacktestData mockPortfolio 0 :=
  core_determinism mockPortfolio mockPortfolio .oneYearChangePercent
    .oneYearChangePercent 0 0 rfl rfl rfl

lemma cwr_mk_positions (p : GeneratedPortfolio) (M : PortfolioMetrics) (k : ReturnKey) :
    calculateWeightedReturn ⟨p.positions, M⟩ k = calculateWeightedReturn p k := rfl

lemma fund_map_benchmark_free (p : GeneratedPortfolio) (d : ℤ) (c1 c3 : Option ℚ) :
    ((generateBacktestData
        { positions := p.positions,
          metrics :=
            { benchmark1YearReturn := c1, benchmark3YearReturn := c3,
              benchmark5YearReturn := p.metrics.benchmark5YearReturn } } d).map
      BacktestDataPoint.fund) =
      ((generateBacktestData p d).map BacktestDataPoint.fund) := by
  cases hf : calculateWeightedReturn p .fiveYearChangePercent with
  | none =>
    have hf2 : calculateWeightedReturn
        ⟨p.positions, ⟨c1, c3, p.metrics.benchmark5YearReturn⟩⟩
        .fiveYearChangePercent = none := (cwr_mk_positions p _ _).trans hf
    simp only [generateBacktestData, hf, hf2]
  | some f5 =>
    cases hb : p.metrics.benchmark5YearReturn with
    | none =>
      have hf2 : calculateWeightedReturn ⟨p.positions, ⟨c1, c3, none⟩⟩
          .fiveYearChangePercent = some f5 := (cwr_mk_positions p _ _).trans hf
      have hbl : (GeneratedPortfolio.mk p.positions ⟨c1, c3, none⟩).metrics.benchmark5YearReturn =
          (none : Option ℚ) := rfl
      simp only [generateBacktestData, hf, hf2, hb, hbl]
    | some b5 =>
      have hf2 : calculateWeightedReturn ⟨p.positions, ⟨c1, c3, some b5⟩⟩
          .fiveYearChangePercent = some f5 := (cwr_mk_positions p _ _).trans hf
      have hbl : (GeneratedPortfolio.mk p.positions ⟨c1, c3, some b5⟩).metrics.benchmark5YearReturn =
          some b5 := rfl
      have h3 : calculateWeightedReturn ⟨p.positions, ⟨c1, c3, some b5⟩⟩
          .threeYearChangePercent = calculateWeightedReturn p .threeYearChangePercent :=
        cwr_mk_positions p _ _
      have h1 : calculateWeightedReturn ⟨p.positions, ⟨c1, c3, some b5⟩⟩
          .oneYearChangePercent = calculateWeightedReturn p .oneYearChangePercent :=
        cwr_mk_positions p _ _
      simp only [generateBacktestData, hf, hf2, hb, hbl, List.map_map]
      refine congrArg (fun f => List.map f (List.range 61)) ?_
      funext m
      show round (segValue (10000 * (1 + f5 / 100))
          (anchorValue (10000 * (1 + f5 / 100))
            (calculateWeightedReturn ⟨p.positions, ⟨c1, c3, some b5⟩⟩ .threeYearChangePercent))
          (anchorValue (10000 * (1 + f5 / 100))
            (calculateWeightedReturn ⟨p.positions, ⟨c1, c3, some b5⟩⟩ .oneYearChangePercent)) m) =
        round (segValue (10000 * (1 + f5 / 100))
          (anchorValue (10000 * (1 + f5 / 100))
            (calculateWeightedReturn p .threeYearChangePercent))
          (anchorValue (10000 * (1 + f5 / 100))
            (calculateWeightedReturn p .oneYearChangePercent)) m)
      rw [h3, h1]

lemma sp500_map_positions_free (p q : GeneratedPortfolio) (d : ℤ)
    (hm : p.metrics = q.metrics)
    (hf : calculateWeightedReturn p .fiveYearChangePercent =
        calculateWeightedReturn q .fiveYearChangePercent) :
    ((generateBacktestData p d).map BacktestDataPoint.sp500) =
      ((generateBacktestData q d).map BacktestDataPoint.sp500) := by
  cases hf5 : calculateWeightedReturn p .fiveYearChangePercent with
  | none =>
    have hq5 : calculateWeightedReturn q .fiveYearChangePercent = none :=
      hf.symm.trans hf5
    simp only [generateBacktestData, hf5, hq5]
  | some f5 =>
    have hq5 : calculateWeightedReturn q .fiveYearChangePercent = some f5 :=
      hf.symm.trans hf5
    cases hb : p.metrics.benchmark5YearReturn with
    | none =>
      have hqb : q.metrics.benchmark5YearReturn = none := by
        rw [← hm]
        exact hb
      simp only [generateBacktestData, hf5, hq5, hb, hqb]
    | some b5 =>
      have hqb : q.metrics.benchmark5YearReturn = some b5 := by
        rw [← hm]
        exact hb
      have hm3 : q.metrics.benchmark3YearReturn = p.metrics.benchmark3YearReturn := by
        rw [hm]
      have hm1 : q.metrics.benchmark1YearReturn = p.metrics.benchmark1YearReturn := by
        rw [hm]
      simp only [generateBacktestData, hf5, hq5, hb, hqb, List.map_map]
      refine congrArg (fun f => List.map f (List.range 61)) ?_
      funext m
      show round (segValue (10000 * (1 + b5 / 100))
          (anchorValue (10000 * (1 + b5 / 100)) p.metrics.benchmark3YearReturn)
          (anchorValue (10000 * (1 + b5 / 100)) p.metrics.benchmark1YearReturn) m) =
        round (segValue (10000 * (1 + b5 / 100))
          (anchorValue (10000 * (1 + b5 / 100)) q.metrics.benchmark3YearReturn)
          (anchorValue (10000 * (1 + b5 / 100)) q.metrics.benchmark1YearReturn) m)
      rw [hm3, hm1]


/-- C9: in the backtest series the fund values depend only on the fund
holdings (changing the benchmark 1-year and 3-year returns while keeping
the benchmark record otherwise intact leaves every fund value unchanged),
and the benchmark values depend only on the benchmark metrics (changing
the holdings while keeping the metrics record and the fund 5-year
aggregate equal leaves every benchmark value unchanged). -/
theorem backtest_noninterference :
    (∀ (p : GeneratedPortfolio) (d : ℤ) (c1 c3 : Option ℚ),
      ((generateBacktestData
          { positions := p.positions,
            metrics :=
              { benchmark1YearReturn := c1, benchmark3YearReturn := c3,
                benchmark5YearReturn := p.metrics.benchmark5YearReturn } } d).map
        BacktestDataPoint.fund) =
        ((generateBacktestData p d).map BacktestDataPoint.fund)) ∧
    (∀ (p q : GeneratedPortfolio) (d : ℤ), p.metrics = q.metrics →
      calculateWeightedReturn p .fiveYearChangePercent =
        calculateWeightedReturn q .fiveYearChangePercent →
      ((generateBacktestData p d).map BacktestDataPoint.sp500) =
        ((generateBacktestData q d).map BacktestDataPoint.sp500)) :=
  ⟨fun p d c1 c3 => fund_map_benchmark_free p d c1 c3,
   fun p q d hm hf => sp500_map_positions_free p q d hm hf⟩

/-- C9 witness: concrete instances of both independence statements on the
test portfolio, with the benchmark 1-year and 3-year fields cleared. -/
theorem backtest_noninterference_witness :
    ((generateBacktestData
        { positions := mockPortfolio.positions,
          metrics :=
            { benchmark1YearReturn := none, benchmark3YearReturn := none,
              benchmark5YearReturn :=
                mockPortfolio.metrics.benchmark5YearReturn } } 0).map
      BacktestDataPoint.fund) =
      ((generateBacktestData mockPortfolio 0).map BacktestDataPoint.fund) ∧
    ((generateBacktestData mockPortfolio 0).map BacktestDataPoint.sp500) =
      ((generateBacktestData mockPortfolio 0).map BacktestDataPoint.sp500) :=
  ⟨backtest_noninterference.1 mockPortfolio 0 none none,
    backtest_noninterference.2 mockPortfolio mockPortfolio 0 rfl rfl⟩

end ClimateShift
